import Mathlib

/-!
Shallow embedding of `src/pytorch/models/preresnet.py` (the PreResNet
residual-topology builder from the imgclsmob repository).

Modules are modelled as configuration records mirroring the constructor
arguments of the corresponding `nn.Module` subclasses; the forward pass is
modelled symbolically, as a function building tensor-expression trees, so that
the wiring of the residual/identity branches can be stated and proved exactly.
`get_preresnet` is modelled over `ℤ` (the `blocks` argument) and `ℚ`
(the `width_scale` argument; Python's `int()` truncation toward zero is made
explicit), returning `Except` for the two `ValueError` raises in the source.
-/

set_option autoImplicit false

namespace Preresnet

/-- Configuration record of an `nn.Conv2d` layer (groups = 1, dilation = 1,
square kernel), as used throughout `preresnet.py`. -/
structure Conv2d where
  in_channels : ℕ
  out_channels : ℕ
  kernel_size : ℕ
  stride : ℕ
  padding : ℕ
  bias : Bool
deriving DecidableEq, Repr

/-- Configuration record of an `nn.BatchNorm2d` layer. -/
structure BatchNorm2d where
  num_features : ℕ
deriving DecidableEq, Repr

/-- Configuration record of an `nn.Linear` layer (bias present, the default). -/
structure Linear where
  in_features : ℕ
  out_features : ℕ
deriving DecidableEq, Repr

/-- Symbolic tensors: the forward pass of each module builds an expression
tree over the input, recording exactly which layer is applied to which
intermediate tensor.  `add` is the element-wise residual sum. -/
inductive TExpr where
  | input : TExpr
  | batchnorm : BatchNorm2d → TExpr → TExpr
  | relu : TExpr → TExpr
  | conv : Conv2d → TExpr → TExpr
  | add : TExpr → TExpr → TExpr
deriving DecidableEq, Repr

/-- `conv1x1` from the source: a bias-free 1×1 convolution with padding 0. -/
def conv1x1 (in_channels out_channels stride : ℕ) : Conv2d :=
  { in_channels := in_channels
    out_channels := out_channels
    kernel_size := 1
    stride := stride
    padding := 0
    bias := false }

/-- `PreResConv`: batch norm, then ReLU, then convolution (bias-free). -/
structure PreResConv where
  bn : BatchNorm2d
  conv : Conv2d
deriving DecidableEq, Repr

/-- Constructor of `PreResConv` in the source. -/
def PreResConv.make (in_channels out_channels kernel_size stride padding : ℕ) :
    PreResConv :=
  { bn := { num_features := in_channels }
    conv :=
      { in_channels := in_channels
        out_channels := out_channels
        kernel_size := kernel_size
        stride := stride
        padding := padding
        bias := false } }

/-- `PreResConv.forward`: returns the convolution output together with
`x_pre_activ`, the post-normalize-and-activate, pre-convolution tensor. -/
def PreResConv.forward (m : PreResConv) (x : TExpr) : TExpr × TExpr :=
  let x1 := TExpr.batchnorm m.bn x
  let x2 := TExpr.relu x1
  let x_pre_activ := x2
  (TExpr.conv m.conv x_pre_activ, x_pre_activ)

/-- `preres_conv1x1` from the source. -/
def preres_conv1x1 (in_channels out_channels stride : ℕ) : PreResConv :=
  PreResConv.make in_channels out_channels 1 stride 0

/-- `preres_conv3x3` from the source. -/
def preres_conv3x3 (in_channels out_channels stride : ℕ) : PreResConv :=
  PreResConv.make in_channels out_channels 3 stride 1

/-- `PreResBlock`: the two-convolution plain residual body. -/
structure PreResBlock where
  conv1 : PreResConv
  conv2 : PreResConv
deriving DecidableEq, Repr

/-- Constructor of `PreResBlock` in the source. -/
def PreResBlock.make (in_channels out_channels stride : ℕ) : PreResBlock :=
  { conv1 := preres_conv3x3 in_channels out_channels stride
    conv2 := preres_conv3x3 out_channels out_channels 1 }

/-- `PreResBlock.forward`: returns the body output and the first
convolution's `x_pre_activ`. -/
def PreResBlock.forward (m : PreResBlock) (x : TExpr) : TExpr × TExpr :=
  let p1 := m.conv1.forward x
  let p2 := m.conv2.forward p1.1
  (p2.1, p1.2)

/-- `PreResBottleneck`: the three-convolution bottleneck residual body. -/
structure PreResBottleneck where
  conv1 : PreResConv
  conv2 : PreResConv
  conv3 : PreResConv
deriving DecidableEq, Repr

/-- Constructor of `PreResBottleneck` in the source:
`mid_channels = out_channels // 4`; the unit stride goes on `conv1` when
`conv1_stride` holds and on `conv2` otherwise. -/
def PreResBottleneck.make (in_channels out_channels stride : ℕ)
    (conv1_stride : Bool) : PreResBottleneck :=
  let mid_channels := out_channels / 4
  { conv1 := preres_conv1x1 in_channels mid_channels
      (if conv1_stride then stride else 1)
    conv2 := preres_conv3x3 mid_channels mid_channels
      (if conv1_stride then 1 else stride)
    conv3 := preres_conv1x1 mid_channels out_channels 1 }

/-- `PreResBottleneck.forward`: returns the body output and the first
convolution's `x_pre_activ`. -/
def PreResBottleneck.forward (m : PreResBottleneck) (x : TExpr) : TExpr × TExpr :=
  let p1 := m.conv1.forward x
  let p2 := m.conv2.forward p1.1
  let p3 := m.conv3.forward p2.1
  (p3.1, p1.2)

/-- The unit body is either a plain block or a bottleneck block. -/
inductive Body where
  | block : PreResBlock → Body
  | bottleneck : PreResBottleneck → Body
deriving DecidableEq, Repr

/-- Dispatch of `self.body(x)` in `PreResUnit.forward`. -/
def Body.forward : Body → TExpr → TExpr × TExpr
  | .block b, x => b.forward x
  | .bottleneck b, x => b.forward x

/-- `PreResUnit`: a residual unit.  `in_channels`, `out_channels` and `stride`
record the constructor arguments (they are determined by the sub-modules). -/
structure PreResUnit where
  in_channels : ℕ
  out_channels : ℕ
  stride : ℕ
  resize_identity : Bool
  body : Body
  identity_conv : Option Conv2d
deriving DecidableEq, Repr

/-- Constructor of `PreResUnit` in the source:
`resize_identity = (in_channels != out_channels) or (stride != 1)`, and
`identity_conv` is created only when `resize_identity` holds. -/
def PreResUnit.make (in_channels out_channels stride : ℕ)
    (bottleneck conv1_stride : Bool) : PreResUnit :=
  let resize := (in_channels != out_channels) || (stride != 1)
  { in_channels := in_channels
    out_channels := out_channels
    stride := stride
    resize_identity := resize
    body :=
      if bottleneck then
        .bottleneck (PreResBottleneck.make in_channels out_channels stride conv1_stride)
      else
        .block (PreResBlock.make in_channels out_channels stride)
    identity_conv :=
      if resize then some (conv1x1 in_channels out_channels stride) else none }

/-- `PreResUnit.forward`: body output plus identity branch, where the identity
branch is `identity_conv (x_pre_activ)` when resizing and the raw input
otherwise. -/
def PreResUnit.forward (u : PreResUnit) (x : TExpr) : TExpr :=
  let p := u.body.forward x
  let identity :=
    if u.resize_identity then
      match u.identity_conv with
      | some c => TExpr.conv c p.2
      | none => x
    else x
  TExpr.add p.1 identity

/-- `PreResInitBlock`: 7×7 stride-2 bias-free convolution, batch norm
(ReLU and max-pool carry no parameters and no configuration we need). -/
structure PreResInitBlock where
  conv : Conv2d
  bn : BatchNorm2d
deriving DecidableEq, Repr

/-- Constructor of `PreResInitBlock` in the source. -/
def PreResInitBlock.make (in_channels out_channels : ℕ) : PreResInitBlock :=
  { conv :=
      { in_channels := in_channels
        out_channels := out_channels
        kernel_size := 7
        stride := 2
        padding := 3
        bias := false }
    bn := { num_features := out_channels } }

/-- `PreResActivation`: the final batch norm + ReLU block. -/
structure PreResActivation where
  bn : BatchNorm2d
deriving DecidableEq, Repr

/-- The whole `PreResNet` module tree: init block, stages of units, final
activation, and the linear classifier (the pooling layers are parameter-free
and fixed, so they carry no configuration). -/
structure PreResNet where
  init_block : PreResInitBlock
  stages : List (List PreResUnit)
  post_activ : PreResActivation
  output : Linear
deriving DecidableEq, Repr

/-- The inner loop of `PreResNet.__init__` over one stage's width list:
`stride = 1 if (i == 0) or (j != 0) else 2`, threading `in_channels` through
the units.  Returns the units and the final `in_channels` value. -/
def buildUnits (bottleneck conv1_stride : Bool) (i : ℕ) :
    ℕ → ℕ → List ℕ → List PreResUnit × ℕ
  | in_channels, _, [] => ([], in_channels)
  | in_channels, j, out_channels :: rest =>
    let stride := if i = 0 ∨ j ≠ 0 then 1 else 2
    let p := buildUnits bottleneck conv1_stride i out_channels (j + 1) rest
    (PreResUnit.make in_channels out_channels stride bottleneck conv1_stride :: p.1,
      p.2)

/-- The outer loop of `PreResNet.__init__` over the stages, threading
`in_channels` across stage boundaries.  Returns the stages and the final
`in_channels` value (the classifier input width). -/
def buildStages (bottleneck conv1_stride : Bool) :
    ℕ → ℕ → List (List ℕ) → List (List PreResUnit) × ℕ
  | in_channels, _, [] => ([], in_channels)
  | in_channels, i, channels_per_stage :: rest =>
    let p := buildUnits bottleneck conv1_stride i in_channels 0 channels_per_stage
    let q := buildStages bottleneck conv1_stride p.2 (i + 1) rest
    (p.1 :: q.1, q.2)

/-- Constructor of `PreResNet` in the source (defaults: `in_channels=3`,
`num_classes=1000`, passed explicitly here). -/
def PreResNet.make (channels : List (List ℕ)) (init_block_channels : ℕ)
    (bottleneck conv1_stride : Bool) (in_channels num_classes : ℕ) : PreResNet :=
  let p := buildStages bottleneck conv1_stride init_block_channels 0 channels
  { init_block := PreResInitBlock.make in_channels init_block_channels
    stages := p.1
    post_activ := { bn := { num_features := p.2 } }
    output := { in_features := p.2, out_features := num_classes } }

/-- Trainable scalar parameters of a convolution: `out·in·k·k` weights plus
`out` bias entries when a bias is present. -/
def Conv2d.paramCount (c : Conv2d) : ℕ :=
  c.out_channels * c.in_channels * c.kernel_size * c.kernel_size +
    (if c.bias then c.out_channels else 0)

/-- Trainable scalar parameters of a batch norm: per-channel scale and shift
(the running statistics are buffers, not trainable parameters). -/
def BatchNorm2d.paramCount (b : BatchNorm2d) : ℕ :=
  2 * b.num_features

/-- Trainable scalar parameters of a linear layer: weights plus bias. -/
def Linear.paramCount (l : Linear) : ℕ :=
  l.out_features * l.in_features + l.out_features

/-- Trainable scalar parameters of a `PreResConv`. -/
def PreResConv.paramCount (m : PreResConv) : ℕ :=
  m.bn.paramCount + m.conv.paramCount

/-- Trainable scalar parameters of a unit body. -/
def Body.paramCount : Body → ℕ
  | .block b => b.conv1.paramCount + b.conv2.paramCount
  | .bottleneck b => b.conv1.paramCount + b.conv2.paramCount + b.conv3.paramCount

/-- Trainable scalar parameters of a `PreResUnit`. -/
def PreResUnit.paramCount (u : PreResUnit) : ℕ :=
  u.body.paramCount +
    (match u.identity_conv with
     | some c => c.paramCount
     | none => 0)

/-- Trainable scalar parameters of the whole network. -/
def PreResNet.paramCount (n : PreResNet) : ℕ :=
  n.init_block.conv.paramCount + n.init_block.bn.paramCount +
    (n.stages.map fun s => (s.map PreResUnit.paramCount).sum).sum +
    n.post_activ.bn.paramCount + n.output.paramCount

/-- The two `ValueError` raises of `get_preresnet`, kept distinct. -/
inductive GetErr where
  | unsupportedBlocks : GetErr
  | pretrainedNotSupported : GetErr
deriving DecidableEq, Repr

/-- Python's `int()` applied to a rational: truncation toward zero. -/
def pyInt (q : ℚ) : ℤ :=
  if q < 0 then -(⌊-q⌋) else ⌊q⌋

/-- `int(c * width_scale)` for a channel width `c` (widths in the source are
nonnegative throughout, so the result is taken in `ℕ`). -/
def scaleChannel (c : ℕ) (width_scale : ℚ) : ℕ :=
  (pyInt ((c : ℚ) * width_scale)).toNat

/-- The `blocks` → `layers` lookup table at the head of `get_preresnet`;
`none` corresponds to the `ValueError` branch. -/
def layersOf (blocks : ℤ) : Option (List ℕ) :=
  if blocks = 10 then some [1, 1, 1, 1]
  else if blocks = 12 then some [2, 1, 1, 1]
  else if blocks = 14 then some [2, 2, 1, 1]
  else if blocks = 16 then some [2, 2, 2, 1]
  else if blocks = 18 then some [2, 2, 2, 2]
  else if blocks = 34 then some [3, 4, 6, 3]
  else if blocks = 50 then some [3, 4, 6, 3]
  else if blocks = 101 then some [3, 4, 23, 3]
  else if blocks = 152 then some [3, 8, 36, 3]
  else if blocks = 200 then some [3, 24, 36, 3]
  else none

/-- The configuration computed by `get_preresnet` before the `PreResNet`
constructor call. -/
structure PreResNetCfg where
  channels : List (List ℕ)
  init_block_channels : ℕ
  bottleneck : Bool
  conv1_stride : Bool
deriving DecidableEq, Repr

/-- `get_preresnet` up to (excluding) the `PreResNet(...)` call, mirroring the
source order: `blocks` lookup, base widths and bottleneck flag by the
`blocks < 50` threshold, per-stage expansion `[[ci] * li]`, width scaling
when `width_scale != 1.0`, then the `pretrained` check. -/
def get_preresnet_cfg (blocks : ℤ) (conv1_stride : Bool) (width_scale : ℚ)
    (pretrained : Bool) : Except GetErr PreResNetCfg :=
  match layersOf blocks with
  | none => .error .unsupportedBlocks
  | some layers =>
    let init_block_channels : ℕ := 64
    let channels_per_layers : List ℕ :=
      if blocks < 50 then [64, 128, 256, 512] else [256, 512, 1024, 2048]
    let bottleneck : Bool := if blocks < 50 then false else true
    let channels : List (List ℕ) :=
      (channels_per_layers.zip layers).map fun p => List.replicate p.2 p.1
    let channels :=
      if width_scale ≠ 1 then
        channels.map fun ci => ci.map fun cij => scaleChannel cij width_scale
      else channels
    let init_block_channels :=
      if width_scale ≠ 1 then scaleChannel init_block_channels width_scale
      else init_block_channels
    if pretrained then .error .pretrainedNotSupported
    else .ok
      { channels := channels
        init_block_channels := init_block_channels
        bottleneck := bottleneck
        conv1_stride := conv1_stride }

/-- `get_preresnet`: derive the configuration and realize the network
(with the default `in_channels=3`, `num_classes=1000`). -/
def get_preresnet (blocks : ℤ) (conv1_stride : Bool) (width_scale : ℚ)
    (pretrained : Bool) : Except GetErr PreResNet :=
  (get_preresnet_cfg blocks conv1_stride width_scale pretrained).map fun cfg =>
    PreResNet.make cfg.channels cfg.init_block_channels cfg.bottleneck
      cfg.conv1_stride 3 1000

/-- `preresnet18` (all keyword defaults). -/
def preresnet18 : Except GetErr PreResNet := get_preresnet 18 true 1 false

/-- `preresnet50` (all keyword defaults). -/
def preresnet50 : Except GetErr PreResNet := get_preresnet 50 true 1 false

/-- `preresnet50b` (`conv1_stride=False`). -/
def preresnet50b : Except GetErr PreResNet := get_preresnet 50 false 1 false

/-- `preresnet101` (all keyword defaults). -/
def preresnet101 : Except GetErr PreResNet := get_preresnet 101 true 1 false

/-- `preresnet101b` (`conv1_stride=False`). -/
def preresnet101b : Except GetErr PreResNet := get_preresnet 101 false 1 false

/-- `preresnet152` (all keyword defaults). -/
def preresnet152 : Except GetErr PreResNet := get_preresnet 152 true 1 false

/-- `preresnet152b` (`conv1_stride=False`). -/
def preresnet152b : Except GetErr PreResNet := get_preresnet 152 false 1 false

/-- The channel-continuity predicate on a run of units: the first unit's
`in_channels` is the given start width, and every later unit's `in_channels`
is the preceding unit's `out_channels`. -/
def channelChain : ℕ → List PreResUnit → Prop
  | _, [] => True
  | c, u :: rest => u.in_channels = c ∧ channelChain u.out_channels rest

/-- The channel width flowing out of a run of units that starts at the given
width (the last unit's `out_channels`, or the start width for an empty run). -/
def chainEnd : ℕ → List PreResUnit → ℕ
  | c, [] => c
  | _, u :: rest => chainEnd u.out_channels rest

section Lemmas

lemma buildUnits_getElem?_stride (bt cs : Bool) (i : ℕ) :
    ∀ (cps : List ℕ) (c j k : ℕ) (u : PreResUnit),
      ((buildUnits bt cs i c j cps).1)[k]? = some u →
      u.stride = if i = 0 ∨ j + k ≠ 0 then 1 else 2 := by
  intro cps
  induction cps with
  | nil =>
    intro c j k u h
    simp [buildUnits] at h
  | cons oc rest ih =>
    intro c j k u h
    cases k with
    | zero =>
      simp only [buildUnits, List.getElem?_cons_zero, Option.some.injEq] at h
      subst h
      simp [PreResUnit.make]
    | succ k =>
      simp only [buildUnits, List.getElem?_cons_succ] at h
      have hrec := ih oc (j + 1) k u h
      have h1 : (j + 1) + k ≠ 0 := by omega
      have h2 : j + (k + 1) ≠ 0 := by omega
      rw [if_pos (Or.inr h1)] at hrec
      rw [if_pos (Or.inr h2)]
      exact hrec

lemma buildStages_getElem? (bt cs : Bool) :
    ∀ (channels : List (List ℕ)) (c i k : ℕ) (s : List PreResUnit),
      ((buildStages bt cs c i channels).1)[k]? = some s →
      ∃ c2 cps, channels[k]? = some cps ∧
        s = (buildUnits bt cs (i + k) c2 0 cps).1 := by
  intro channels
  induction channels with
  | nil =>
    intro c i k s h
    simp [buildStages] at h
  | cons cps rest ih =>
    intro c i k s h
    cases k with
    | zero =>
      simp only [buildStages, List.getElem?_cons_zero, Option.some.injEq] at h
      exact ⟨c, cps, by simp, h.symm⟩
    | succ k =>
      simp only [buildStages, List.getElem?_cons_succ] at h
      obtain ⟨c2, cps2, h1, h2⟩ :=
        ih (buildUnits bt cs i c 0 cps).2 (i + 1) k s h
      have hik : (i + 1) + k = i + (k + 1) := by omega
      rw [hik] at h2
      exact ⟨c2, cps2, by simpa using h1, h2⟩

lemma buildUnits_chain (bt cs : Bool) (i : ℕ) :
    ∀ (cps : List ℕ) (c j : ℕ),
      channelChain c (buildUnits bt cs i c j cps).1 ∧
      (buildUnits bt cs i c j cps).2 = chainEnd c (buildUnits bt cs i c j cps).1 := by
  intro cps
  induction cps with
  | nil =>
    intro c j
    exact ⟨trivial, rfl⟩
  | cons oc rest ih =>
    intro c j
    obtain ⟨hch, hend⟩ := ih oc (j + 1)
    refine ⟨⟨rfl, ?_⟩, ?_⟩
    · simpa [PreResUnit.make] using hch
    · simpa [buildUnits, chainEnd, PreResUnit.make] using hend

lemma chain_append (l1 : List PreResUnit) :
    ∀ (c : ℕ) (l2 : List PreResUnit), channelChain c l1 →
      channelChain (chainEnd c l1) l2 → channelChain c (l1 ++ l2) := by
  induction l1 with
  | nil =>
    intro c l2 _ h2
    simpa [chainEnd] using h2
  | cons u rest ih =>
    intro c l2 h1 h2
    obtain ⟨hu, hrest⟩ := h1
    exact ⟨hu, ih u.out_channels l2 hrest (by simpa [chainEnd] using h2)⟩

lemma buildStages_chain (bt cs : Bool) :
    ∀ (channels : List (List ℕ)) (c i : ℕ),
      channelChain c ((buildStages bt cs c i channels).1).flatten := by
  intro channels
  induction channels with
  | nil =>
    intro c i
    simp [buildStages, channelChain]
  | cons cps rest ih =>
    intro c i
    obtain ⟨hch, hend⟩ := buildUnits_chain bt cs i cps c 0
    have hrest := ih (buildUnits bt cs i c 0 cps).2 (i + 1)
    simp only [buildStages, List.flatten]
    exact chain_append _ _ _ hch (by rw [← hend]; exact hrest)

lemma chain_head (us : List PreResUnit) (c : ℕ) (u : PreResUnit)
    (hch : channelChain c us) (h : us[0]? = some u) : u.in_channels = c := by
  cases us with
  | nil => simp at h
  | cons w rest =>
    simp only [List.getElem?_cons_zero, Option.some.injEq] at h
    subst h
    exact hch.1

lemma chain_getElem? (us : List PreResUnit) :
    ∀ (c k : ℕ) (u v : PreResUnit), channelChain c us →
      us[k]? = some u → us[k + 1]? = some v →
      v.in_channels = u.out_channels := by
  induction us with
  | nil =>
    intro c k u v _ h
    simp at h
  | cons w rest ih =>
    intro c k u v hch hu hv
    cases k with
    | zero =>
      simp only [List.getElem?_cons_zero, Option.some.injEq] at hu
      simp only [List.getElem?_cons_succ] at hv
      subst hu
      exact chain_head rest _ v hch.2 hv
    | succ k =>
      simp only [List.getElem?_cons_succ] at hu hv
      exact ih w.out_channels k u v hch.2 hu hv

end Lemmas

/-- C1: a `PreResUnit` has an identity-resizing projection exactly when
`in_channels ≠ out_channels` or `stride ≠ 1`; when it exists it is the
bias-free 1×1 convolution `conv1x1 in_channels out_channels stride` applied to
`x_pre_activ` (the first pre-activation convolution's post-normalize-and-
activate, pre-convolution tensor, i.e. `relu (batchnorm x)` at the unit
input); otherwise the identity branch is the raw unit input; the unit output
is the element-wise sum of the body output and the identity branch. -/
theorem unit_identity_rule (ic oc s : ℕ) (bt cs : Bool) (x : TExpr) :
    ((PreResUnit.make ic oc s bt cs).resize_identity = true ↔ (ic ≠ oc ∨ s ≠ 1)) ∧
    ((PreResUnit.make ic oc s bt cs).identity_conv.isSome = true ↔ (ic ≠ oc ∨ s ≠ 1)) ∧
    ((PreResUnit.make ic oc s bt cs).identity_conv =
      if ic ≠ oc ∨ s ≠ 1 then some (conv1x1 ic oc s) else none) ∧
    ((PreResUnit.make ic oc s bt cs).body.forward x).2 =
      TExpr.relu (TExpr.batchnorm { num_features := ic } x) ∧
    (PreResUnit.make ic oc s bt cs).forward x =
      TExpr.add ((PreResUnit.make ic oc s bt cs).body.forward x).1
        (if ic ≠ oc ∨ s ≠ 1 then
          TExpr.conv (conv1x1 ic oc s)
            (TExpr.relu (TExpr.batchnorm { num_features := ic } x))
        else x) ∧
    (conv1x1 ic oc s).bias = false ∧
    (conv1x1 ic oc s).kernel_size = 1 ∧
    (conv1x1 ic oc s).stride = s := by
  have hcond : ((ic != oc) || (s != 1)) = true ↔ (ic ≠ oc ∨ s ≠ 1) := by
    simp [bne_iff_ne]
  constructor
  · simp only [PreResUnit.make]
    exact hcond
  refine ⟨?_, ?_, ?_, ?_, rfl, rfl, rfl⟩
  · by_cases h : ic ≠ oc ∨ s ≠ 1 <;> simp_all [PreResUnit.make, hcond]
  · by_cases h : ic ≠ oc ∨ s ≠ 1 <;> simp_all [PreResUnit.make, hcond]
  · cases bt <;>
      simp [PreResUnit.make, Body.forward, PreResBlock.make, PreResBlock.forward,
        PreResBottleneck.make, PreResBottleneck.forward, preres_conv3x3,
        preres_conv1x1, PreResConv.make, PreResConv.forward]
  · by_cases h : ic ≠ oc ∨ s ≠ 1 <;>
      cases bt <;>
      simp_all [PreResUnit.make, PreResUnit.forward, Body.forward,
        PreResBlock.make, PreResBlock.forward, PreResBottleneck.make,
        PreResBottleneck.forward, preres_conv3x3, preres_conv1x1,
        PreResConv.make, PreResConv.forward, hcond]

/-- C3: in every constructed network, the unit at position `j` of stage `i`
has stride 2 exactly when it is the first unit (`j = 0`) of a stage other
than the first (`i ≠ 0`), and stride 1 otherwise. -/
theorem stride_placement (channels : List (List ℕ)) (ibc : ℕ) (bt cs : Bool)
    (ic nc i j : ℕ) (s : List PreResUnit) (u : PreResUnit)
    (hs : (PreResNet.make channels ibc bt cs ic nc).stages[i]? = some s)
    (hu : s[j]? = some u) :
    u.stride = if i ≠ 0 ∧ j = 0 then 2 else 1 := by
  simp only [PreResNet.make] at hs
  obtain ⟨c2, cps, _, rfl⟩ := buildStages_getElem? bt cs channels ibc 0 i s hs
  have h := buildUnits_getElem?_stride bt cs (0 + i) cps c2 0 j u hu
  by_cases h1 : i = 0 <;> by_cases h2 : j = 0 <;> simp_all

/-- Witness for C3 at a concrete two-stage network: the first unit of the
second stage has stride 2. -/
theorem stride_placement_witness :
    (PreResNet.make [[4], [8]] 16 false true 3 10).stages[1]? =
      some [PreResUnit.make 4 8 2 false true] ∧
    ([PreResUnit.make 4 8 2 false true] : List PreResUnit)[0]? =
      some (PreResUnit.make 4 8 2 false true) ∧
    (PreResUnit.make 4 8 2 false true).stride = if 1 ≠ 0 ∧ 0 = 0 then 2 else 1 :=
  ⟨rfl, rfl,
    stride_placement [[4], [8]] 16 false true 3 10 1 0
      [PreResUnit.make 4 8 2 false true] (PreResUnit.make 4 8 2 false true)
      rfl rfl⟩

/-- C4: in every constructed network the flattened run of units forms a
channel chain starting at the init-block output width: the first unit's
`in_channels` is the init-block `out_channels`, and every later unit's
`in_channels` is the immediately preceding unit's `out_channels`; the indexed
form of both statements is included. -/
theorem channel_continuity (channels : List (List ℕ)) (ibc : ℕ) (bt cs : Bool)
    (ic nc : ℕ) :
    (PreResNet.make channels ibc bt cs ic nc).init_block.conv.out_channels = ibc ∧
    channelChain ibc ((PreResNet.make channels ibc bt cs ic nc).stages).flatten ∧
    (∀ (u : PreResUnit),
      (((PreResNet.make channels ibc bt cs ic nc).stages).flatten)[0]? = some u →
      u.in_channels = ibc) ∧
    (∀ (k : ℕ) (u v : PreResUnit),
      (((PreResNet.make channels ibc bt cs ic nc).stages).flatten)[k]? = some u →
      (((PreResNet.make channels ibc bt cs ic nc).stages).flatten)[k + 1]? = some v →
      v.in_channels = u.out_channels) := by
  have hch : channelChain ibc ((PreResNet.make channels ibc bt cs ic nc).stages).flatten := by
    simp only [PreResNet.make]
    exact buildStages_chain bt cs channels ibc 0
  refine ⟨rfl, hch, ?_, ?_⟩
  · intro u hu
    exact chain_head _ ibc u hch hu
  · intro k u v hu hv
    exact chain_getElem? _ ibc k u v hch hu hv

/-- Witness for C4 at a concrete two-stage network: the second unit's
`in_channels` equals the first unit's `out_channels`, and the first unit's
`in_channels` equals the init-block output width. -/
theorem channel_continuity_witness :
    (((PreResNet.make [[5], [9]] 4 false true 3 10).stages).flatten)[0]? =
      some (PreResUnit.make 4 5 1 false true) ∧
    (((PreResNet.make [[5], [9]] 4 false true 3 10).stages).flatten)[1]? =
      some (PreResUnit.make 5 9 2 false true) ∧
    (PreResUnit.make 4 5 1 false true).in_channels = 4 ∧
    (PreResUnit.make 5 9 2 false true).in_channels =
      (PreResUnit.make 4 5 1 false true).out_channels :=
  ⟨rfl, rfl,
    (channel_continuity [[5], [9]] 4 false true 3 10).2.2.1
      (PreResUnit.make 4 5 1 false true) rfl,
    (channel_continuity [[5], [9]] 4 false true 3 10).2.2.2 0
      (PreResUnit.make 4 5 1 false true) (PreResUnit.make 5 9 2 false true)
      rfl rfl⟩

/-- C2: for every supported `blocks` value (with `width_scale = 1`, i.e.
before any width scaling), `get_preresnet` picks the base per-stage widths and
the bottleneck flag solely by the `blocks < 50` threshold —
`[64, 128, 256, 512]` with `bottleneck = false` below 50, and
`[256, 512, 1024, 2048]` with `bottleneck = true` otherwise — and the
init-block width is 64. -/
theorem base_width_selection (blocks : ℤ) (l : List ℕ) (cs : Bool)
    (h : layersOf blocks = some l) :
    (get_preresnet_cfg blocks cs 1 false).toOption.map
      PreResNetCfg.init_block_channels = some 64 ∧
    (get_preresnet_cfg blocks cs 1 false).toOption.map PreResNetCfg.bottleneck =
      some (if blocks < 50 then false else true) ∧
    (get_preresnet_cfg blocks cs 1 false).toOption.map PreResNetCfg.channels =
      some (((if blocks < 50 then ([64, 128, 256, 512] : List ℕ)
          else [256, 512, 1024, 2048]).zip l).map
        fun p => List.replicate p.2 p.1) := by
  by_cases hb : blocks < 50 <;>
    simp [get_preresnet_cfg, h, hb, Except.toOption]

/-- Witness for C2 at `blocks = 50` (the first bottleneck variant). -/
theorem base_width_selection_witness :
    layersOf 50 = some [3, 4, 6, 3] ∧
    ((get_preresnet_cfg 50 true 1 false).toOption.map
      PreResNetCfg.init_block_channels = some 64 ∧
    (get_preresnet_cfg 50 true 1 false).toOption.map PreResNetCfg.bottleneck =
      some (if (50 : ℤ) < 50 then false else true) ∧
    (get_preresnet_cfg 50 true 1 false).toOption.map PreResNetCfg.channels =
      some (((if (50 : ℤ) < 50 then ([64, 128, 256, 512] : List ℕ)
          else [256, 512, 1024, 2048]).zip [3, 4, 6, 3]).map
        fun p => List.replicate p.2 p.1)) :=
  ⟨rfl, base_width_selection 50 [3, 4, 6, 3] true rfl⟩

/-- C5 (amended): for every bottleneck unit the mid-stage width is exactly
`out_channels / 4` (floor division) in all three positions that use it; the
unit stride sits on the first 1×1 convolution when `conv1_stride` is true and
on the middle 3×3 convolution otherwise, the final 1×1 convolution always
having stride 1.  Configurations where the mid width is zero are NOT rejected
or flagged: the unit is constructed with zero mid channels (last conjunct). -/
theorem bottleneck_mid_width (ic oc s : ℕ) (cs : Bool) :
    (PreResBottleneck.make ic oc s cs).conv1.conv.out_channels = oc / 4 ∧
    (PreResBottleneck.make ic oc s cs).conv2.conv.in_channels = oc / 4 ∧
    (PreResBottleneck.make ic oc s cs).conv2.conv.out_channels = oc / 4 ∧
    (PreResBottleneck.make ic oc s cs).conv3.conv.in_channels = oc / 4 ∧
    (PreResBottleneck.make ic oc s cs).conv3.conv.out_channels = oc ∧
    (PreResBottleneck.make ic oc s cs).conv1.conv.stride =
      (if cs then s else 1) ∧
    (PreResBottleneck.make ic oc s cs).conv2.conv.stride =
      (if cs then 1 else s) ∧
    (PreResBottleneck.make ic oc s cs).conv3.conv.stride = 1 ∧
    (PreResBottleneck.make 64 2 1 true).conv1.conv.out_channels = 0 :=
  ⟨rfl, rfl, rfl, rfl, rfl, rfl, rfl, rfl, rfl⟩

/-- Counterexample for C5 as stated: a configuration whose bottleneck mid
width is zero is accepted, not rejected or flagged — `blocks = 50` with
`width_scale = 1/100` yields stage widths as low as 2 (so `2 / 4 = 0` mid
channels), `get_preresnet_cfg` returns `ok`, `get_preresnet` constructs a network,
and the resulting bottleneck has a zero-width first convolution. -/
theorem bottleneck_zero_mid_not_rejected :
    get_preresnet_cfg 50 true (1 / 100) false =
      Except.ok
        { channels := [[2, 2, 2], [5, 5, 5, 5], [10, 10, 10, 10, 10, 10],
            [20, 20, 20]]
          init_block_channels := 0
          bottleneck := true
          conv1_stride := true } ∧
    (get_preresnet 50 true (1 / 100) false).toOption.isSome = true ∧
    (PreResBottleneck.make 64 2 1 true).conv1.conv.out_channels = 0 := by
  have h1 : get_preresnet_cfg 50 true (1 / 100) false =
      Except.ok
        { channels := [[2, 2, 2], [5, 5, 5, 5], [10, 10, 10, 10, 10, 10],
            [20, 20, 20]]
          init_block_channels := 0
          bottleneck := true
          conv1_stride := true } := by
    norm_num [get_preresnet_cfg, layersOf, scaleChannel, pyInt, List.replicate]
    decide
  refine ⟨h1, ?_, rfl⟩
  simp only [get_preresnet, h1]
  rfl

/-- C6: for every supported `blocks` and every `width_scale`, the channel
widths are first expanded per stage and then — exactly when
`width_scale ≠ 1` — every width (the init-block width included) is multiplied
by `width_scale` and truncated toward zero; each stage remains a constant
(`List.replicate`) width list, so all units of a stage scale identically;
`width_scale = 1/2` on `blocks = 18` yields stage widths
`[32, 64, 128, 256]` and init width 32, and `width_scale = 1` leaves the base
widths unchanged. -/
theorem width_scaling (blocks : ℤ) (l : List ℕ) (cs : Bool) (ws : ℚ)
    (h : layersOf blocks = some l) :
    (get_preresnet_cfg blocks cs ws false).toOption.map PreResNetCfg.channels =
      some (((if blocks < 50 then ([64, 128, 256, 512] : List ℕ)
          else [256, 512, 1024, 2048]).zip l).map
        fun p => List.replicate p.2
          (if ws ≠ 1 then scaleChannel p.1 ws else p.1)) ∧
    (get_preresnet_cfg blocks cs ws false).toOption.map
      PreResNetCfg.init_block_channels =
      some (if ws ≠ 1 then scaleChannel 64 ws else 64) ∧
    get_preresnet_cfg 18 cs (1 / 2) false =
      Except.ok
        { channels := [[32, 32], [64, 64], [128, 128], [256, 256]]
          init_block_channels := 32
          bottleneck := false
          conv1_stride := cs } := by
  refine ⟨?_, ?_, ?_⟩
  case _ =>
    by_cases hw : ws = 1 <;> by_cases hb : blocks < 50 <;>
      simp [get_preresnet_cfg, h, hw, hb, Except.toOption, List.map_map,
        List.map_replicate, Function.comp]
  case _ =>
    by_cases hw : ws = 1 <;> by_cases hb : blocks < 50 <;>
      simp [get_preresnet_cfg, h, hw, hb, Except.toOption]
  case _ =>
    norm_num [get_preresnet_cfg, layersOf, scaleChannel, pyInt, List.replicate]
    decide

/-- Witness for C6 at `blocks = 18`, `width_scale = 1/2`. -/
theorem width_scaling_witness :
    layersOf 18 = some [2, 2, 2, 2] ∧
    ((get_preresnet_cfg 18 true (1 / 2) false).toOption.map
      PreResNetCfg.channels =
      some (((if (18 : ℤ) < 50 then ([64, 128, 256, 512] : List ℕ)
          else [256, 512, 1024, 2048]).zip [2, 2, 2, 2]).map
        fun p => List.replicate p.2
          (if (1 / 2 : ℚ) ≠ 1 then scaleChannel p.1 (1 / 2) else p.1)) ∧
    (get_preresnet_cfg 18 true (1 / 2) false).toOption.map
      PreResNetCfg.init_block_channels =
      some (if (1 / 2 : ℚ) ≠ 1 then scaleChannel 64 (1 / 2) else 64) ∧
    get_preresnet_cfg 18 true (1 / 2) false =
      Except.ok
        { channels := [[32, 32], [64, 64], [128, 128], [256, 256]]
          init_block_channels := 32
          bottleneck := false
          conv1_stride := true }) :=
  ⟨rfl, width_scaling 18 [2, 2, 2, 2] true (1 / 2) rfl⟩

/-- C7: the `blocks` → unit-count table of `get_preresnet` is exactly the
fixed lookup table of the spec, and any `blocks` value outside the supported
set makes `get_preresnet` fail with the unsupported-blocks error before
anything is built (the result is the error, carrying no network). -/
theorem supported_blocks_table (b : ℤ) (cs : Bool) (ws : ℚ) (p : Bool)
    (h : b ∉ ([10, 12, 14, 16, 18, 34, 50, 101, 152, 200] : List ℤ)) :
    layersOf 10 = some [1, 1, 1, 1] ∧
    layersOf 12 = some [2, 1, 1, 1] ∧
    layersOf 14 = some [2, 2, 1, 1] ∧
    layersOf 16 = some [2, 2, 2, 1] ∧
    layersOf 18 = some [2, 2, 2, 2] ∧
    layersOf 34 = some [3, 4, 6, 3] ∧
    layersOf 50 = some [3, 4, 6, 3] ∧
    layersOf 101 = some [3, 4, 23, 3] ∧
    layersOf 152 = some [3, 8, 36, 3] ∧
    layersOf 200 = some [3, 24, 36, 3] ∧
    layersOf b = none ∧
    get_preresnet b cs ws p = Except.error GetErr.unsupportedBlocks := by
  simp only [List.mem_cons, List.not_mem_nil, or_false, not_or] at h
  obtain ⟨h10, h12, h14, h16, h18, h34, h50, h101, h152, h200⟩ := h
  have hb : layersOf b = none := by
    simp [layersOf, h10, h12, h14, h16, h18, h34, h50, h101, h152, h200]
  refine ⟨rfl, rfl, rfl, rfl, rfl, rfl, rfl, rfl, rfl, rfl, hb, ?_⟩
  simp [get_preresnet, get_preresnet_cfg, hb, Except.map]

/-- Witness for C7 at `blocks = 11`. -/
theorem supported_blocks_table_witness :
    (11 : ℤ) ∉ ([10, 12, 14, 16, 18, 34, 50, 101, 152, 200] : List ℤ) ∧
    (layersOf 10 = some [1, 1, 1, 1] ∧
    layersOf 12 = some [2, 1, 1, 1] ∧
    layersOf 14 = some [2, 2, 1, 1] ∧
    layersOf 16 = some [2, 2, 2, 1] ∧
    layersOf 18 = some [2, 2, 2, 2] ∧
    layersOf 34 = some [3, 4, 6, 3] ∧
    layersOf 50 = some [3, 4, 6, 3] ∧
    layersOf 101 = some [3, 4, 23, 3] ∧
    layersOf 152 = some [3, 8, 36, 3] ∧
    layersOf 200 = some [3, 24, 36, 3] ∧
    layersOf 11 = none ∧
    get_preresnet 11 true 1 false = Except.error GetErr.unsupportedBlocks) :=
  ⟨by decide, supported_blocks_table 11 true 1 false (by decide)⟩

/-- C8: for every supported `blocks` value (hence every preset, whatever the
stride-placement and width-scale arguments), requesting pretrained weights
makes `get_preresnet` fail with the pretrained-not-supported error; the
result is the error both at configuration level and at network level, so no
network is constructed. -/
theorem pretrained_not_supported (b : ℤ) (l : List ℕ) (cs : Bool) (ws : ℚ)
    (h : layersOf b = some l) :
    get_preresnet b cs ws true = Except.error GetErr.pretrainedNotSupported ∧
    get_preresnet_cfg b cs ws true =
      Except.error GetErr.pretrainedNotSupported := by
  constructor <;> simp [get_preresnet, get_preresnet_cfg, h, Except.map]

/-- Witness for C8 at `blocks = 18`. -/
theorem pretrained_not_supported_witness :
    layersOf 18 = some [2, 2, 2, 2] ∧
    (get_preresnet 18 true 1 true = Except.error GetErr.pretrainedNotSupported ∧
    get_preresnet_cfg 18 true 1 true =
      Except.error GetErr.pretrainedNotSupported) :=
  ⟨rfl, pretrained_not_supported 18 [2, 2, 2, 2] true 1 rfl⟩

/-- C9: the trainable-parameter totals of the constructed presets match the
reference values asserted by the source's self-test — 11,687,848 for
`preresnet18`, 25,549,480 for `preresnet50` and `preresnet50b`, 44,541,608
for `preresnet101` and `preresnet101b`, 60,185,256 for `preresnet152` and
`preresnet152b` — identical across both stride-placement variants. -/
theorem param_counts :
    preresnet18.toOption.map PreResNet.paramCount = some 11687848 ∧
    preresnet50.toOption.map PreResNet.paramCount = some 25549480 ∧
    preresnet50b.toOption.map PreResNet.paramCount = some 25549480 ∧
    preresnet101.toOption.map PreResNet.paramCount = some 44541608 ∧
    preresnet101b.toOption.map PreResNet.paramCount = some 44541608 ∧
    preresnet152.toOption.map PreResNet.paramCount = some 60185256 ∧
    preresnet152b.toOption.map PreResNet.paramCount = some 60185256 :=
  ⟨rfl, rfl, rfl, rfl, rfl, rfl, rfl⟩

/-- C10: when `blocks` is unsupported and `pretrained` is true at the same
time, the error is the unsupported-blocks one, because the block-count lookup
comes before the pretrained check in `get_preresnet`. -/
theorem unsupported_blocks_wins_over_pretrained (b : ℤ) (cs : Bool) (ws : ℚ)
    (h : layersOf b = none) :
    get_preresnet b cs ws true = Except.error GetErr.unsupportedBlocks := by
  simp [get_preresnet, get_preresnet_cfg, h, Except.map]

/-- Witness for C10 at `blocks = 11`, `pretrained = true`. -/
theorem unsupported_blocks_wins_over_pretrained_witness :
    layersOf 11 = none ∧
    get_preresnet 11 true 1 true = Except.error GetErr.unsupportedBlocks :=
  ⟨by decide, unsupported_blocks_wins_over_pretrained 11 true 1 (by decide)⟩

end Preresnet
